import Mathlib

/-!
# RideAware frontend: shallow embedding

This file embeds the client logic of the RideAware single-page application
(src/frontend/src/App.tsx together with its translation table
src/frontend/src/translations.ts) in Lean 4 and proves properties of it.

Modelling conventions:
* JavaScript strings become Lean String; string length is the Lean
  codepoint length (the sources only compare lengths of ordinary text,
  where this agrees with the UTF-16 unit count on the inputs of interest).
* JavaScript numbers carrying coordinates and confidences become Rat;
  the embedded code never performs arithmetic on them.
* The React useState cells become the fields of AppState; each event
  handler becomes a function from the old state (plus the observed
  network outcome) to the new state together with the list of HTTP
  requests the handler issues, in order.
* fetch outcomes are modelled by the inductive types PostOutcome and
  LoadOutcome: a POST either is ok, returns a non-ok status whose body
  may or may not yield a detail field, or throws; a list load either
  yields a decoded list of reports or throws (covering both a fetch
  rejection and a JSON decode failure).
* URLSearchParams construction is modelled as the ordered list of
  appended key/value pairs.
-/

namespace RideAware

/-- The two UI locales of translations.ts. -/
inductive Language where
  | en : Language
  | de : Language
deriving DecidableEq

/-- The record of user-facing strings, one instance per locale
(the shape of the translations object in translations.ts). -/
structure UIStrings where
  appTitle : String
  appSubtitle : String
  backend : String
  newReport : String
  clickOnMap : String
  reportLabel : String
  reportPlaceholder : String
  submitButton : String
  submitting : String
  tipText : String
  latestReports : String
  entries : String
  noReports : String
  legend : String
  obstacle : String
  dangerSpot : String
  infrastructureProblem : String
  positiveFeedback : String
  selectedPosition : String
  errorLength : String
  errorNoLocation : String
  errorSendFailed : String
  errorBackendUnreachable : String
  errorLoadReports : String
deriving DecidableEq

/-- The translations lookup table of translations.ts. -/
def translations : Language → UIStrings
  | Language.en =>
    { appTitle := "RideAware"
      appSubtitle := "Near-miss & Hazard Reporting (Prototype)"
      backend := "Backend"
      newReport := "New Report"
      clickOnMap := "click on map"
      reportLabel := "Report (5–150 characters)"
      reportPlaceholder := "e.g. Glass on bike lane at intersection…"
      submitButton := "Submit Report"
      submitting := "Sending…"
      tipText := "Tip: First click on the map, then submit. Markers appear directly on the map."
      latestReports := "Latest Reports"
      entries := "entries"
      noReports := "No reports yet. Create a new report using the form."
      legend := "Legend"
      obstacle := "Obstacle"
      dangerSpot := "Danger Spot"
      infrastructureProblem := "Infrastructure Problem"
      positiveFeedback := "Positive Feedback"
      selectedPosition := "Selected Position"
      errorLength := "Text must be between 5 and 150 characters."
      errorNoLocation := "Please select a position on the map first."
      errorSendFailed := "Sending failed."
      errorBackendUnreachable := "Backend unreachable (is FastAPI running on port 8000?)."
      errorLoadReports := "Reports could not be loaded." }
  | Language.de =>
    { appTitle := "RideAware"
      appSubtitle := "Beinahe-Unfälle & Gefahrenmeldungen (Prototyp)"
      backend := "Backend"
      newReport := "Neue Meldung"
      clickOnMap := "auf Karte klicken"
      reportLabel := "Meldung (5–150 Zeichen)"
      reportPlaceholder := "z. B. Glas auf dem Radweg bei der Kreuzung…"
      submitButton := "Meldung absenden"
      submitting := "Senden…"
      tipText := "Tipp: Erst auf die Karte klicken, dann absenden. Marker erscheinen direkt auf der Map."
      latestReports := "Letzte Meldungen"
      entries := "Einträge"
      noReports := "Noch keine Meldungen. Erstelle eine neue Meldung über das Formular."
      legend := "Legende"
      obstacle := "Hindernis"
      dangerSpot := "Gefahrenstelle"
      infrastructureProblem := "Infrastrukturproblem"
      positiveFeedback := "Positives Feedback"
      selectedPosition := "Ausgewählte Position"
      errorLength := "Text muss zwischen 5 und 150 Zeichen haben."
      errorNoLocation := "Bitte zuerst eine Position auf der Karte auswählen."
      errorSendFailed := "Senden fehlgeschlagen."
      errorBackendUnreachable := "Backend nicht erreichbar (läuft FastAPI auf Port 8000?)."
      errorLoadReports := "Reports konnten nicht geladen werden." }

/-- The categoryTranslations lookup table of translations.ts, as the ordered
association list of the object literal entries. -/
def categoryTranslations : Language → List (String × String)
  | Language.en =>
      [("Hindernis", "Obstacle"),
       ("Gefahrenstelle", "Danger Spot"),
       ("Infrastrukturproblem", "Infrastructure Problem"),
       ("Positives Feedback", "Positive Feedback"),
       ("Spam", "Spam")]
  | Language.de =>
      [("Hindernis", "Hindernis"),
       ("Gefahrenstelle", "Gefahrenstelle"),
       ("Infrastrukturproblem", "Infrastrukturproblem"),
       ("Positives Feedback", "Positives Feedback"),
       ("Spam", "Spam")]

/-- App.tsx renders a category via the translation table with the raw
category as fallback, ct[r.category] || r.category. -/
def translateCategory (lang : Language) (c : String) : String :=
  match (categoryTranslations lang).lookup c with
  | some s => s
  | none => c

/-- The CATEGORIES constant of App.tsx: the category values the filter
dropdown offers (Spam deliberately absent). -/
def CATEGORIES : List String :=
  ["Hindernis", "Infrastrukturproblem", "Gefahrenstelle", "Positives Feedback"]

/-- The JavaScript String.prototype.trim operation: strip leading and
trailing whitespace. Embedded structurally over the character list so that
it evaluates inside the kernel; on the ASCII whitespace the sources can
contain it agrees with the JS semantics. -/
def jsTrim (s : String) : String :=
  String.mk (((s.data.dropWhile Char.isWhitespace).reverse.dropWhile Char.isWhitespace).reverse)

/-- The markerColor function of App.tsx: switch on the trimmed category.
The TS source coalesces a null category to the empty string first; Lean
strings are never null, so that guard has no residue here. -/
def markerColor (category : String) : String :=
  if jsTrim category = "Hindernis" then "#ff5a5f"
  else if jsTrim category = "Gefahrenstelle" then "#ffb020"
  else if jsTrim category = "Infrastrukturproblem" then "#2dd4bf"
  else if jsTrim category = "Positives Feedback" then "#4f8cff"
  else if jsTrim category = "Spam" then "#94a3b8"
  else "#a78bfa"

/-- A picked position on the map. -/
structure Pos where
  lat : Rat
  lng : Rat
deriving DecidableEq

/-- The Report record type of App.tsx. -/
structure Report where
  id : Int
  text : String
  latitude : Rat
  longitude : Rat
  timestamp : String
  category : String
  confidence : Rat
  source : String
  is_corrected : Bool
  model_name : Option String := none
  model_version : Option String := none
deriving DecidableEq

/-- The useState cells of the App component. -/
structure AppState where
  language : Language
  text : String
  picked : Option Pos
  reports : List Report
  error : Option String
  busy : Bool
  filterCategory : String
  searchText : String
  tempSearch : String
deriving DecidableEq

/-- The initial component state (the useState initialisers of App.tsx). -/
def initialState : AppState :=
  { language := Language.de
    text := ""
    picked := none
    reports := []
    error := none
    busy := false
    filterCategory := ""
    searchText := ""
    tempSearch := "" }

/-- The JSON body of the POST issued by submit. -/
structure PostBody where
  text : String
  latitude : Rat
  longitude : Rat
  source : String
deriving DecidableEq

/-- The HTTP requests the embedded handlers can issue; query strings are
kept as the ordered key/value pairs appended to URLSearchParams. -/
inductive Request where
  | postReport (body : PostBody) : Request
  | getReports (params : List (String × String)) : Request
  | getExport (params : List (String × String)) : Request
deriving DecidableEq

/-- Outcome of the GET in loadReports: either a decoded report list, or a
throw (covering a rejected fetch and a failing res.json alike). -/
inductive LoadOutcome where
  | ok (data : List Report) : LoadOutcome
  | failure : LoadOutcome
deriving DecidableEq

/-- Outcome of the POST in submit. httpError carries the optional detail
field of the decoded error body (none covers both an undecodable body and
a body without detail); ok carries the outcome of the follow-up list
reload awaited inside the same try block. -/
inductive PostOutcome where
  | ok (load : LoadOutcome) : PostOutcome
  | httpError (detail : Option String) : PostOutcome
  | networkFailure : PostOutcome
deriving DecidableEq

/-- The query parameters loadReports appends: category when the filter is
truthy, then search when the search text is truthy. -/
def listParams (st : AppState) : List (String × String) :=
  (if st.filterCategory = "" then [] else [("category", st.filterCategory)])
    ++ (if st.searchText = "" then [] else [("search", st.searchText)])

/-- The query parameters exportCSV appends: category only. -/
def exportParams (st : AppState) : List (String × String) :=
  if st.filterCategory = "" then [] else [("category", st.filterCategory)]

/-- The body of loadReports after a successful decode: store the decoded
list with Spam entries filtered out. -/
def applyLoadOk (st : AppState) (data : List Report) : AppState :=
  { st with reports := data.filter (fun r => r.category != "Spam") }

/-- One run of loadReports as invoked by the useEffect hook, whose catch
sets the load error message; returns the new state and the issued
requests. -/
def loadReportsStep (st : AppState) (out : LoadOutcome) : AppState × List Request :=
  match out with
  | LoadOutcome.ok data =>
      (applyLoadOk st data, [Request.getReports (listParams st)])
  | LoadOutcome.failure =>
      ({ st with error := some (translations st.language).errorLoadReports },
       [Request.getReports (listParams st)])

/-- The exportCSV handler: opens the export URL built from the category
filter only. -/
def exportCSV (st : AppState) : Request :=
  Request.getExport (exportParams st)

/-- The validation prefix of submit: setError(null), trim the text, check
the trimmed length and the picked position. On rejection (Sum.inl) the
handler returns before any fetch, with the rejection error overwriting the
cleared error; on success (Sum.inr) it has set busy and is about to issue
the POST request returned alongside. -/
def submitValidate (st : AppState) : AppState ⊕ (AppState × Request) :=
  if (jsTrim st.text).length < 5 ∨ 150 < (jsTrim st.text).length then
    Sum.inl { st with error := some (translations st.language).errorLength }
  else
    match st.picked with
    | none => Sum.inl { st with error := some (translations st.language).errorNoLocation }
    | some p =>
        Sum.inr ({ st with error := none, busy := true },
          Request.postReport
            { text := jsTrim st.text, latitude := p.lat, longitude := p.lng, source := "real" })

/-- The rest of submit once the POST outcome is known, mirroring the
try/catch/finally: a non-ok response surfaces the detail field or the
generic send-failed message; an ok response clears the text and awaits
loadReports (whose throw is caught by the same catch as the POST, giving
the backend-unreachable message); the finally clause resets busy. -/
def submitComplete (st : AppState) (out : PostOutcome) : AppState × List Request :=
  match out with
  | PostOutcome.httpError detail =>
      ({ st with
          error := some (detail.getD (translations st.language).errorSendFailed)
          busy := false }, [])
  | PostOutcome.networkFailure =>
      ({ st with
          error := some (translations st.language).errorBackendUnreachable
          busy := false }, [])
  | PostOutcome.ok load =>
      match load with
      | LoadOutcome.ok data =>
          ({ applyLoadOk { st with text := "" } data with busy := false },
           [Request.getReports (listParams { st with text := "" })])
      | LoadOutcome.failure =>
          ({ st with
              text := ""
              error := some (translations st.language).errorBackendUnreachable
              busy := false },
           [Request.getReports (listParams { st with text := "" })])

/-- The whole submit handler: validate, then, when a POST was issued,
complete with the observed outcome. Returns the new state and every
request issued, in order. -/
def submit (st : AppState) (out : PostOutcome) : AppState × List Request :=
  match submitValidate st with
  | Sum.inl stErr => (stErr, [])
  | Sum.inr (stBusy, req) =>
      let r := submitComplete stBusy out
      (r.1, req :: r.2)

/-- The disabled attribute of the submit button in App.tsx. -/
def submitButtonDisabled (st : AppState) : Bool :=
  st.busy

/-- A click on the submit button: a disabled button fires no handler. -/
def clickSubmit (st : AppState) (out : PostOutcome) : AppState × List Request :=
  if submitButtonDisabled st then (st, []) else submit st out

/-- The handleSearch handler: commit the pending search box text. -/
def handleSearch (st : AppState) : AppState :=
  { st with searchText := st.tempSearch }

/-- The clearFilters handler. -/
def clearFilters (st : AppState) : AppState :=
  { st with filterCategory := "", searchText := "", tempSearch := "" }

/-- Modelled from the spec: the fixed category label set named in section 3
of the specification. This definition follows the words of the spec, not
the source, and exists only to be compared against the label values the
source actually uses. -/
def specCategoryLabels : List String :=
  ["Obstacle", "DangerSpot", "InfrastructureProblem", "PositiveFeedback", "Spam"]

/-- A concrete state in which validation passes: text of valid length and a
picked position; used to instantiate theorems at concrete inputs. -/
def stValid : AppState :=
  { initialState with text := "hello", picked := some { lat := 48, lng := 16 } }

/-- A concrete non-Spam report, used to instantiate theorems. -/
def okReport : Report :=
  { id := 1
    text := "Glas auf dem Radweg"
    latitude := 48
    longitude := 16
    timestamp := "2024-01-01T10:00:00"
    category := "Hindernis"
    confidence := 1
    source := "real"
    is_corrected := false }

/-- A concrete Spam report, used to instantiate theorems. -/
def spamReport : Report :=
  { id := 2
    text := "Kaufen Sie jetzt"
    latitude := 48
    longitude := 16
    timestamp := "2024-01-01T11:00:00"
    category := "Spam"
    confidence := 1
    source := "real"
    is_corrected := false }

/-! ## Theorems about the claims -/

/-- C10: markerColor is a total deterministic function returning one of six
fixed hex colors; each of the five known category labels, surrounding
whitespace tolerated, maps to its own color, the five being pairwise
distinct; every input whose trimmed form is not one of the five labels,
the empty string included, maps to the fallback purple. -/
theorem C10_markerColor_total_fixed (s : String) :
    markerColor s ∈ ["#ff5a5f", "#ffb020", "#2dd4bf", "#4f8cff", "#94a3b8", "#a78bfa"] ∧
    markerColor " Hindernis " = "#ff5a5f" ∧
    markerColor " Gefahrenstelle " = "#ffb020" ∧
    markerColor " Infrastrukturproblem " = "#2dd4bf" ∧
    markerColor " Positives Feedback " = "#4f8cff" ∧
    markerColor " Spam " = "#94a3b8" ∧
    markerColor "" = "#a78bfa" ∧
    List.Pairwise (fun a b => a ≠ b)
      ["#ff5a5f", "#ffb020", "#2dd4bf", "#4f8cff", "#94a3b8"] ∧
    (jsTrim s ∉ ["Hindernis", "Gefahrenstelle", "Infrastrukturproblem",
               "Positives Feedback", "Spam"] →
      markerColor s = "#a78bfa") := by
  refine ⟨?_, by decide, by decide, by decide, by decide, by decide, by decide, by decide, ?_⟩
  · unfold markerColor
    split_ifs <;> simp
  · intro h
    simp only [List.mem_cons, List.not_mem_nil, or_false, not_or] at h
    unfold markerColor
    split_ifs <;> tauto

/-- C3 counterexample - the fixed label set the program stores, filters and
recognizes is not the label set named by the spec: the filter dropdown
offers the value Hindernis, which is not among the spec labels, while the
spec label Obstacle is not a dropdown value and is not recognized by
markerColor (it falls through to the fallback purple). -/
theorem C3_labels_counterexample :
    "Hindernis" ∈ CATEGORIES ∧
    "Hindernis" ∉ specCategoryLabels ∧
    "Obstacle" ∉ CATEGORIES ∧
    markerColor "Obstacle" = "#a78bfa" := by
  decide

/-- C3 amended - the canonical category values are the five German labels
Hindernis, Infrastrukturproblem, Gefahrenstelle, Positives Feedback and
Spam: the filter dropdown offers precisely the four non-Spam labels, the
keys of both locale translation tables are precisely the five labels,
markerColor gives each of the five its own non-fallback color, the English
display translations of the five are Obstacle, Infrastructure Problem,
Danger Spot, Positive Feedback and Spam, and the German display
translation is the identity. -/
theorem C3_canonical_labels :
    ((categoryTranslations Language.en).map Prod.fst).Perm (CATEGORIES ++ ["Spam"]) ∧
    ((categoryTranslations Language.de).map Prod.fst).Perm (CATEGORIES ++ ["Spam"]) ∧
    (CATEGORIES ++ ["Spam"]).map markerColor =
      ["#ff5a5f", "#2dd4bf", "#ffb020", "#4f8cff", "#94a3b8"] ∧
    (CATEGORIES ++ ["Spam"]).map (translateCategory Language.en) =
      ["Obstacle", "Infrastructure Problem", "Danger Spot", "Positive Feedback", "Spam"] ∧
    (CATEGORIES ++ ["Spam"]).map (translateCategory Language.de) =
      CATEGORIES ++ ["Spam"] := by
  refine ⟨?_, ?_, by decide, by decide, by decide⟩ <;> decide

/-- C8: the CSV export request carries the category query parameter exactly
when a category filter is active, with the very value the list request
carries, and never carries the search parameter: export filters by
category only. -/
theorem C8_export_category_only (st : AppState) (v : String) :
    exportCSV st = Request.getExport (exportParams st) ∧
    (("category", v) ∈ exportParams st ↔ (st.filterCategory ≠ "" ∧ v = st.filterCategory)) ∧
    (("category", v) ∈ exportParams st ↔ ("category", v) ∈ listParams st) ∧
    ("search", v) ∉ exportParams st := by
  refine ⟨rfl, ?_, ?_, ?_⟩
  · unfold exportParams
    split_ifs with h <;> simp [h]
  · unfold exportParams listParams
    split_ifs with h h2 <;> simp [h]
  · unfold exportParams
    split_ifs with h <;> simp

/-- Helper: a rejection by submitValidate sets one of the two validation
error messages and changes nothing else. -/
theorem submitValidate_inl_eq (st stErr : AppState)
    (h : submitValidate st = Sum.inl stErr) :
    stErr = { st with error := some (translations st.language).errorLength } ∨
    stErr = { st with error := some (translations st.language).errorNoLocation } := by
  unfold submitValidate at h
  split_ifs at h with hc
  · exact Or.inl (Sum.inl.inj h).symm
  · cases hp : st.picked with
    | none =>
        rw [hp] at h
        exact Or.inr (Sum.inl.inj h).symm
    | some p =>
        rw [hp] at h
        exact Sum.noConfusion h

/-- Helper: when submitValidate proceeds to the POST, the in-flight state is
the input state with the error cleared and busy set. -/
theorem submitValidate_inr_eq (st stBusy : AppState) (req : Request)
    (h : submitValidate st = Sum.inr (stBusy, req)) :
    stBusy = { st with error := none, busy := true } := by
  unfold submitValidate at h
  split_ifs at h with hc
  cases hp : st.picked with
  | none =>
      rw [hp] at h
      exact Sum.noConfusion h
  | some p =>
      rw [hp] at h
      injection h with h1
      injection h1 with ha hb
      exact ha.symm

set_option maxRecDepth 4096 in
/-- C1 counterexample - an input text longer than 150 characters whose
trimmed form has valid length is submitted: the POST is issued, so the
claim, which keys the rejection on the raw input length, fails on the
code (the code validates the trimmed length). -/
theorem C1_raw_length_counterexample :
    150 < ("aaaaa" ++ String.mk (List.replicate 146 ' ')).length ∧
    (submit
        { initialState with
            text := "aaaaa" ++ String.mk (List.replicate 146 ' ')
            picked := some { lat := 48, lng := 16 } }
        (PostOutcome.httpError none)).2 ≠ [] := by
  decide

/-- C1 amended - for every input text whose trimmed length is below 5 or
above 150, submit rejects the submission client-side, sets the inline
length error message, and issues no request at all. -/
theorem C1_trimmed_length_reject (st : AppState) (out : PostOutcome)
    (h : (jsTrim st.text).length < 5 ∨ 150 < (jsTrim st.text).length) :
    (submit st out).1.error = some (translations st.language).errorLength ∧
    (submit st out).2 = [] := by
  unfold submit submitValidate
  rw [if_pos h]
  exact ⟨rfl, rfl⟩

/-- C1 witness - the amended theorem applied to a concrete two-character
text. -/
theorem C1_trimmed_length_reject_witness :
    (submit { initialState with text := "ab" } PostOutcome.networkFailure).1.error =
      some (translations Language.de).errorLength ∧
    (submit { initialState with text := "ab" } PostOutcome.networkFailure).2 = [] :=
  C1_trimmed_length_reject { initialState with text := "ab" } PostOutcome.networkFailure
    (by decide)

/-- C2: after every successful list load, whatever the active category
filter and search text, the stored reports contain no Spam entry; and
every submit outcome preserves Spam-freeness of the stored reports. -/
theorem C2_no_spam_stored (st : AppState) (data : List Report) :
    (∀ r ∈ (loadReportsStep st (LoadOutcome.ok data)).1.reports, r.category ≠ "Spam") ∧
    ((∀ r ∈ st.reports, r.category ≠ "Spam") →
      ∀ out : PostOutcome, ∀ r ∈ (submit st out).1.reports, r.category ≠ "Spam") := by
  constructor
  · intro r hr
    simp only [loadReportsStep, applyLoadOk, List.mem_filter] at hr
    simpa using hr.2
  · intro hinv out r hr
    cases hv : submitValidate st with
    | inl stErr =>
        have hs : (submit st out).1 = stErr := by
          unfold submit
          rw [hv]
        rw [hs] at hr
        rcases submitValidate_inl_eq st stErr hv with he | he <;> subst he <;>
          exact hinv r hr
    | inr pr =>
        obtain ⟨stBusy, req⟩ := pr
        have hb := submitValidate_inr_eq st stBusy req hv
        have hs : (submit st out).1 = (submitComplete stBusy out).1 := by
          unfold submit
          rw [hv]
        rw [hs, hb] at hr
        cases out with
        | httpError d => exact hinv r hr
        | networkFailure => exact hinv r hr
        | ok load =>
            cases load with
            | failure => exact hinv r hr
            | ok data2 =>
                simp only [submitComplete, applyLoadOk, List.mem_filter] at hr
                simpa using hr.2

/-- C2 witness - the theorem applied to a concrete load of one ordinary and
one Spam report. -/
theorem C2_no_spam_stored_witness : okReport.category ≠ "Spam" :=
  (C2_no_spam_stored initialState [okReport, spamReport]).1 okReport (by decide)

/-- C4: once validation passes, the in-flight state has the busy flag set
and the submit button disabled, a click in that state fires no handler and
issues no request, and completing the request resets busy to false for
every outcome: success, error status, or throw. -/
theorem C4_busy_blocks_second_submit (st : AppState) (p : Pos) (out : PostOutcome)
    (h5 : 5 ≤ (jsTrim st.text).length) (h150 : (jsTrim st.text).length ≤ 150)
    (hp : st.picked = some p) :
    submitValidate st =
      Sum.inr ({ st with error := none, busy := true },
        Request.postReport
          { text := jsTrim st.text, latitude := p.lat, longitude := p.lng,
            source := "real" }) ∧
    submitButtonDisabled { st with error := none, busy := true } = true ∧
    (∀ o : PostOutcome, clickSubmit { st with error := none, busy := true } o =
        ({ st with error := none, busy := true }, [])) ∧
    (submitComplete { st with error := none, busy := true } out).1.busy = false := by
  have hc : ¬((jsTrim st.text).length < 5 ∨ 150 < (jsTrim st.text).length) := by omega
  refine ⟨?_, rfl, ?_, ?_⟩
  · unfold submitValidate
    rw [if_neg hc, hp]
  · intro o
    rfl
  · cases out with
    | httpError d => rfl
    | networkFailure => rfl
    | ok load => cases load <;> rfl

/-- C4 witness - the theorem applied to the concrete valid state. -/
theorem C4_busy_blocks_second_submit_witness :
    (submitComplete { stValid with error := none, busy := true }
        PostOutcome.networkFailure).1.busy = false :=
  (C4_busy_blocks_second_submit stValid { lat := 48, lng := 16 }
    PostOutcome.networkFailure (by decide) (by decide) rfl).2.2.2

/-- C5: with a text of valid trimmed length and no picked position, submit
rejects the submission with the no-location error message and issues no
request. -/
theorem C5_no_position_reject (st : AppState) (out : PostOutcome)
    (h5 : 5 ≤ (jsTrim st.text).length) (h150 : (jsTrim st.text).length ≤ 150)
    (hp : st.picked = none) :
    (submit st out).1.error = some (translations st.language).errorNoLocation ∧
    (submit st out).2 = [] := by
  have hc : ¬((jsTrim st.text).length < 5 ∨ 150 < (jsTrim st.text).length) := by omega
  unfold submit submitValidate
  rw [if_neg hc, hp]
  exact ⟨rfl, rfl⟩

/-- C5 witness - the theorem applied to a concrete five-character text with
no position picked. -/
theorem C5_no_position_reject_witness :
    (submit { initialState with text := "hello" } PostOutcome.networkFailure).1.error =
      some (translations Language.de).errorNoLocation ∧
    (submit { initialState with text := "hello" } PostOutcome.networkFailure).2 = [] :=
  C5_no_position_reject { initialState with text := "hello" } PostOutcome.networkFailure
    (by decide) (by decide) rfl

/-- C6: on a non-ok response the error shown is exactly the decoded detail
field when there is one, else the generic send-failed fallback; on a
thrown fetch the distinct backend-unreachable message is shown, and that
message differs from the fallback. -/
theorem C6_error_message_mapping (st : AppState) (p : Pos) (d : String)
    (h5 : 5 ≤ (jsTrim st.text).length) (h150 : (jsTrim st.text).length ≤ 150)
    (hp : st.picked = some p) :
    (submit st (PostOutcome.httpError (some d))).1.error = some d ∧
    (submit st (PostOutcome.httpError none)).1.error =
      some (translations st.language).errorSendFailed ∧
    (submit st PostOutcome.networkFailure).1.error =
      some (translations st.language).errorBackendUnreachable ∧
    (translations st.language).errorBackendUnreachable ≠
      (translations st.language).errorSendFailed := by
  have hc : ¬((jsTrim st.text).length < 5 ∨ 150 < (jsTrim st.text).length) := by omega
  have hv : submitValidate st =
      Sum.inr ({ st with error := none, busy := true },
        Request.postReport
          { text := jsTrim st.text, latitude := p.lat, longitude := p.lng,
            source := "real" }) := by
    unfold submitValidate
    rw [if_neg hc, hp]
  refine ⟨?_, ?_, ?_, ?_⟩
  · unfold submit
    rw [hv]
    rfl
  · unfold submit
    rw [hv]
    rfl
  · unfold submit
    rw [hv]
    rfl
  · cases hL : st.language <;> decide

/-- C6 witness - the theorem applied to the concrete valid state and a
concrete detail message. -/
theorem C6_error_message_mapping_witness :
    (submit stValid (PostOutcome.httpError (some "Text zu kurz"))).1.error =
      some "Text zu kurz" :=
  (C6_error_message_mapping stValid { lat := 48, lng := 16 } "Text zu kurz"
    (by decide) (by decide) rfl).1

/-- C7 counterexample - a list load failure does not always show the load
error message: when the reload awaited inside submit throws, the catch of
submit shows the backend-unreachable message instead, which differs from
the load error message (the stored reports do stay unchanged there). -/
theorem C7_load_error_counterexample :
    (submit stValid (PostOutcome.ok LoadOutcome.failure)).1.error =
      some (translations Language.de).errorBackendUnreachable ∧
    (translations Language.de).errorBackendUnreachable ≠
      (translations Language.de).errorLoadReports ∧
    (submit stValid (PostOutcome.ok LoadOutcome.failure)).1.reports = stValid.reports := by
  decide

/-- C7 amended - every list load failure leaves the stored reports
unchanged, so every report already displayed stays displayed; a failure of
the load started by the filter effect sets the load error message, while a
failure of the reload awaited inside submit sets the backend-unreachable
message. -/
theorem C7_load_failure_frame (st : AppState) (p : Pos)
    (h5 : 5 ≤ (jsTrim st.text).length) (h150 : (jsTrim st.text).length ≤ 150)
    (hp : st.picked = some p) :
    ((loadReportsStep st LoadOutcome.failure).1.reports = st.reports ∧
     (loadReportsStep st LoadOutcome.failure).1.error =
       some (translations st.language).errorLoadReports) ∧
    ((submit st (PostOutcome.ok LoadOutcome.failure)).1.reports = st.reports ∧
     (submit st (PostOutcome.ok LoadOutcome.failure)).1.error =
       some (translations st.language).errorBackendUnreachable) := by
  have hc : ¬((jsTrim st.text).length < 5 ∨ 150 < (jsTrim st.text).length) := by omega
  have hv : submitValidate st =
      Sum.inr ({ st with error := none, busy := true },
        Request.postReport
          { text := jsTrim st.text, latitude := p.lat, longitude := p.lng,
            source := "real" }) := by
    unfold submitValidate
    rw [if_neg hc, hp]
  refine ⟨⟨rfl, rfl⟩, ?_, ?_⟩ <;>
    · unfold submit
      rw [hv]
      rfl

/-- C7 witness - the amended theorem applied to the concrete valid state. -/
theorem C7_load_failure_frame_witness :
    (loadReportsStep stValid LoadOutcome.failure).1.reports = stValid.reports :=
  ((C7_load_failure_frame stValid { lat := 48, lng := 16 }
    (by decide) (by decide) rfl).1).1

/-- C9: a successful POST clears the text input and the handler issues
exactly the POST followed by one list reload carrying the active filter
and search parameters; on a non-ok response or a thrown fetch the text
input keeps its value. -/
theorem C9_success_clears_and_reloads (st : AppState) (p : Pos) (load : LoadOutcome)
    (h5 : 5 ≤ (jsTrim st.text).length) (h150 : (jsTrim st.text).length ≤ 150)
    (hp : st.picked = some p) :
    (submit st (PostOutcome.ok load)).1.text = "" ∧
    (submit st (PostOutcome.ok load)).2 =
      [Request.postReport
          { text := jsTrim st.text, latitude := p.lat, longitude := p.lng,
            source := "real" },
       Request.getReports (listParams st)] ∧
    (∀ d : Option String, (submit st (PostOutcome.httpError d)).1.text = st.text) ∧
    (submit st PostOutcome.networkFailure).1.text = st.text := by
  have hc : ¬((jsTrim st.text).length < 5 ∨ 150 < (jsTrim st.text).length) := by omega
  have hv : submitValidate st =
      Sum.inr ({ st with error := none, busy := true },
        Request.postReport
          { text := jsTrim st.text, latitude := p.lat, longitude := p.lng,
            source := "real" }) := by
    unfold submitValidate
    rw [if_neg hc, hp]
  refine ⟨?_, ?_, ?_, ?_⟩
  · cases load <;>
      · unfold submit
        rw [hv]
        rfl
  · cases load <;>
      · unfold submit
        rw [hv]
        rfl
  · intro d
    unfold submit
    rw [hv]
    rfl
  · unfold submit
    rw [hv]
    rfl

/-- C9 witness - the theorem applied to the concrete valid state and an
empty successful reload. -/
theorem C9_success_clears_and_reloads_witness :
    (submit stValid (PostOutcome.ok (LoadOutcome.ok []))).1.text = "" :=
  (C9_success_clears_and_reloads stValid { lat := 48, lng := 16 }
    (LoadOutcome.ok []) (by decide) (by decide) rfl).1

end RideAware
